import Mathlib

/-!
Verification of the discord-mic-bot core pipeline (`dmb/model.py`).

The development shallowly embeds the parts of `Model` that the properties
concern: the per-frame encode loop `_encode_voice_loop`, the capacity-1
`asyncio.Queue` handoff fed by `_recording_callback_main_thread`, the
session registry operations `join_voice` / `leave_voice`, and
`start_recording`.  Machine-level details that the properties do not touch
(the Opus byte stream, the Discord wire protocol) are represented by
observable events (encode invocations, packets sent, state signals).
-/

/-- The speaking state sent over the voice gateway:
`discord.SpeakingState.voice` (Speaking) or `discord.SpeakingState.none`
(Silent).  `none_` mirrors `SpeakingState.none`, the default used by
`getattr(voice_client, '_dmb_speaking', discord.SpeakingState.none)`. -/
inductive SpeakingState where
  | voice
  | none_
deriving DecidableEq, Repr

/-- One `discord.VoiceClient` as seen by the loop: whether
`is_connected()` holds, the channel it belongs to, and the ad-hoc
`_dmb_speaking` attribute (absent until first set by `setattr`). -/
structure VoiceClient where
  connected : Bool
  channel : Nat
  dmbSpeaking : Option SpeakingState
deriving DecidableEq, Repr

/-- `getattr(voice_client, '_dmb_speaking', discord.SpeakingState.none)`:
the last-signaled state, defaulting to Silent when never signaled. -/
def storedSpeaking (vc : VoiceClient) : SpeakingState :=
  vc.dmbSpeaking.getD SpeakingState.none_

/-- One input to a loop iteration: the mute flag `self.muted` at the time
the frame is processed, and the raw PCM buffer (as its list of bytes). -/
structure FrameIn where
  muted : Bool
  buf : List Nat
deriving DecidableEq, Repr

/-- `buffer.count(0) == len(buffer)`: the silence test of line 202. -/
def countZeroAll (b : List Nat) : Bool :=
  b.count 0 == b.length

/-- A frame that takes the increment branch of lines 199–203: muted, or
all bytes zero. -/
def isSilentFrame (f : FrameIn) : Bool :=
  f.muted || countZeroAll f.buf

/-- Lines 199–205: the updated `consecutive_silence` after one frame. -/
def updatedSilence (f : FrameIn) (n : Nat) : Nat :=
  if f.muted = true then n + 1
  else if countZeroAll f.buf = true then n + 1
  else 0

/-- Line 207: `speaking = voice if consecutive_silence <= 1 else none`. -/
def speakingOf (n : Nat) : SpeakingState :=
  if n ≤ 1 then SpeakingState.voice else SpeakingState.none_

/-- Lines 209–211, effect on one client: when connected and the stored
`_dmb_speaking` differs from the new state, `setattr` records the new
state; otherwise the client is untouched. -/
def stepClient (speaking : SpeakingState) (vc : VoiceClient) : VoiceClient :=
  if vc.connected = true ∧ storedSpeaking vc ≠ speaking then
    { vc with dmbSpeaking := some speaking }
  else vc

/-- Lines 209–211, signal emitted to one client: `ws.speak(speaking)` is
scheduled exactly when the client is connected and its stored state
differs from the new state. -/
def signalOf (speaking : SpeakingState) (vc : VoiceClient) : Option SpeakingState :=
  if vc.connected = true ∧ storedSpeaking vc ≠ speaking then some speaking
  else Option.none

/-- Observable events of one loop iteration: the computed speaking state,
the signal (if any) emitted to each client (parallel to the client list),
the buffer passed to `opus_encode_float` when encoding happened, and the
channels of the clients that received `send_audio_packet`. -/
structure FrameOutput where
  speaking : SpeakingState
  signals : List (Option SpeakingState)
  payload : Option (List Nat)
  sends : List Nat
deriving DecidableEq, Repr

/-- The loop-carried state: `consecutive_silence` and the clients of
`self.discord_client.voice_clients`. -/
structure LoopState where
  consecutiveSilence : Nat
  clients : List VoiceClient
deriving DecidableEq, Repr

/-- One iteration of `_encode_voice_loop` (lines 199–225) on a non-`None`
buffer: update `consecutive_silence` (zeroing the buffer when muted),
compute the speaking state, dispatch state-change signals to every
client, then — unless `consecutive_silence > 2` hits the `continue` of
line 213 — encode the buffer and send the packet to every connected
client. -/
def processFrame (f : FrameIn) (s : LoopState) : LoopState × FrameOutput :=
  let n := updatedSilence f s.consecutiveSilence
  let buf := if f.muted = true then List.replicate f.buf.length 0 else f.buf
  let speaking := speakingOf n
  let clients2 := s.clients.map (stepClient speaking)
  let signals := s.clients.map (signalOf speaking)
  if n > 2 then
    (⟨n, clients2⟩, ⟨speaking, signals, Option.none, []⟩)
  else
    (⟨n, clients2⟩, ⟨speaking, signals, some buf,
      (clients2.filter (fun c => c.connected)).map (fun c => c.channel)⟩)

/-- Running `_encode_voice_loop` over a list of dequeued frames, from a
given state, collecting each iteration's observable events. -/
def runLoop : List FrameIn → LoopState → LoopState × List FrameOutput
  | [], s => (s, [])
  | f :: fs, s =>
    let r := processFrame f s
    let rest := runLoop fs r.1
    (rest.1, r.2 :: rest.2)

/-- The number of trailing frames of a sequence that are each muted or
all-zero (the property `consecutive_silence` is claimed to compute). -/
def trailingSilent (fs : List FrameIn) : Nat :=
  (fs.reverse.takeWhile isSilentFrame).length

/-- `self.audio_queue = asyncio.Queue(1)` (line 57): a bounded queue with
`maxsize` slots holding pending frames in FIFO order. -/
structure AudioQueue where
  maxsize : Nat
  items : List (List Nat)
deriving DecidableEq, Repr

/-- `_recording_callback_main_thread` (lines 186–190): `put_nowait`, with
`QueueFull` caught and ignored — when the queue already holds `maxsize`
items the incoming frame is discarded and the queue is unchanged.  The
call returns immediately in every case (the producer never waits). -/
def put_nowait (q : AudioQueue) (frame : List Nat) : AudioQueue :=
  if q.maxsize ≤ q.items.length then q
  else { q with items := q.items ++ [frame] }

/-- The consumer side `await self.audio_queue.get()` (line 195), taken at
the moment a frame is available: removes and returns the oldest item. -/
def queueGet (q : AudioQueue) : AudioQueue × Option (List Nat) :=
  match q.items with
  | [] => (q, Option.none)
  | x :: xs => ({ q with items := xs }, some x)

/-- An access to the handoff queue: a producer put attempt or a consumer
take. -/
inductive QOp where
  | put (frame : List Nat)
  | take
deriving DecidableEq, Repr

/-- Effect of one access on the queue. -/
def queueStep (q : AudioQueue) : QOp → AudioQueue
  | QOp.put f => put_nowait q f
  | QOp.take => (queueGet q).1

/-- The queue after a sequence of accesses, starting from the empty
capacity-1 queue built in `Model.__init__`. -/
def runQueueOps (ops : List QOp) : AudioQueue :=
  ops.foldl queueStep ⟨1, []⟩

/-- Python `list.remove`'s removal: drop the first occurrence. -/
def listRemoveFirst : List Nat → Nat → List Nat
  | [], _ => []
  | x :: xs, a => if x = a then xs else x :: listRemoveFirst xs a

/-- The Python exceptions the modelled operations can propagate:
`ValueError` from `list.remove` on a missing element, and the exception
raised by `input_stream.start()`. -/
inductive PyError where
  | valueError
  | streamStart
deriving DecidableEq, Repr

/-- The `Model` state that `join_voice` / `leave_voice` touch: the
`self.joined` registry (channels by id) and a count of
`CTL_RESET_STATE` controls issued to the single shared
`self.opus_encoder` (each call mutates the encoder's internal state). -/
structure BotState where
  joined : List Nat
  encoderResets : Nat
deriving DecidableEq, Repr

/-- Observable events of one `join_voice` call: whether
`channel.connect()` was attempted, whether a connect exception was
caught and printed (line 131), and the exception propagated to the
caller, if any.  The `try`/`except` around `channel.connect()` swallows
every connect failure, so `raised` is `Option.none` in every branch. -/
structure JoinLog where
  connectAttempted : Bool
  printedError : Bool
  raised : Option PyError
deriving DecidableEq, Repr

/-- `Model.join_voice` (lines 123–138).  `connectOk` says whether the
awaited `channel.connect()` succeeds.  Already-joined channels return at
line 125 before any other effect.  Otherwise the channel is appended,
connect is attempted (on failure the exception is printed and the channel
removed again), and the shared encoder is reset unconditionally. -/
def join_voice (s : BotState) (c : Nat) (connectOk : Bool) :
    BotState × JoinLog :=
  if c ∈ s.joined then (s, ⟨false, false, Option.none⟩)
  else if connectOk then
    (⟨s.joined ++ [c], s.encoderResets + 1⟩, ⟨true, false, Option.none⟩)
  else
    (⟨listRemoveFirst (s.joined ++ [c]) c, s.encoderResets + 1⟩,
     ⟨true, true, Option.none⟩)

/-- `Model.leave_voice` (lines 140–148).  `self.joined.remove(channel)`
raises `ValueError` when the channel is not in the registry; the
exception propagates to the caller and the registry is left unchanged.
Otherwise the first occurrence is removed (the disconnects of matching
voice clients are then awaited; they do not touch the registry). -/
def leave_voice (s : BotState) (c : Nat) : BotState × Option PyError :=
  if c ∈ s.joined then
    ({ s with joined := listRemoveFirst s.joined c }, Option.none)
  else (s, some PyError.valueError)

/-- One entry of `sounddevice.query_devices()`: name (as an id), input
channel count, and host API index. -/
structure Dev where
  name : Nat
  maxInputChannels : Nat
  hostapi : Nat
deriving DecidableEq, Repr

/-- The device environment `start_recording` queries — host API names
(as ids) from `query_hostapis()` and the device table — plus whether
`input_stream.start()` would succeed. -/
structure RecEnv where
  hostapis : List Nat
  devices : List Dev
  startOk : Bool
deriving DecidableEq, Repr

/-- The recording state: `self.input_stream`, holding the matched device
index when a stream is open. -/
structure RecState where
  inputStream : Option Nat
deriving DecidableEq, Repr

/-- The device filter of line 161: name matches, has input channels, the
host API index is in range, and the host API's name is the requested
one. -/
def matchesDevice (hostapis : List Nat) (hostapi device : Nat) (d : Dev) : Bool :=
  d.name == device && decide (0 < d.maxInputChannels) &&
    decide (d.hostapi < hostapis.length) && hostapis.getD d.hostapi 0 == hostapi

/-- `Model.start_recording` (lines 150–173).  Any existing stream is
stopped, closed and cleared first (lines 151–154).  The `for`/`else`
search returns silently when no device matches (line 165).  On a match
the stream is opened; if `start()` raises, the stream is closed and
cleared before the exception propagates (lines 168–173), reported here as
the second component. -/
def start_recording (env : RecEnv) (s : RecState) (hostapi device : Nat) :
    RecState × Option PyError :=
  match env.devices.findIdx? (matchesDevice env.hostapis hostapi device) with
  | Option.none => (⟨Option.none⟩, Option.none)
  | some idx =>
    if env.startOk then (⟨some idx⟩, Option.none)
    else (⟨Option.none⟩, some PyError.streamStart)

/-! ## Helper lemmas -/

theorem zip_map_self {α β : Type} (g : α → β) (l : List α) :
    l.zip (l.map g) = l.map (fun a => (a, g a)) := by
  induction l with
  | nil => rfl
  | cons a t ih => simp [ih]

theorem takeWhile_of_all {α : Type} (p : α → Bool) (l : List α)
    (h : l.all p = true) : l.takeWhile p = l := by
  induction l with
  | nil => rfl
  | cons a t ih =>
    rw [List.all_cons, Bool.and_eq_true] at h
    simp [List.takeWhile_cons, h.1, ih h.2]

theorem takeWhile_append_of_all {α : Type} (p : α → Bool) (l1 l2 : List α)
    (h : l1.all p = true) : (l1 ++ l2).takeWhile p = l1 ++ l2.takeWhile p := by
  induction l1 with
  | nil => simp
  | cons a t ih =>
    rw [List.all_cons, Bool.and_eq_true] at h
    simp [List.takeWhile_cons, h.1, ih h.2]

theorem takeWhile_append_of_not_all {α : Type} (p : α → Bool) (l1 l2 : List α)
    (h : l1.all p = false) : (l1 ++ l2).takeWhile p = l1.takeWhile p := by
  induction l1 with
  | nil => simp at h
  | cons a t ih =>
    cases hpa : p a with
    | true =>
      have ht : t.all p = false := by
        rw [List.all_cons, hpa, Bool.true_and] at h
        exact h
      simp [List.takeWhile_cons, hpa, ih ht]
    | false => simp [List.takeWhile_cons, hpa]

theorem all_reverse_eq {α : Type} (p : α → Bool) (l : List α) :
    l.reverse.all p = l.all p := by
  induction l with
  | nil => rfl
  | cons a t ih =>
    simp [List.all_append, ih, Bool.and_comm]

/-- Characterization of `processFrame` as explicit components. -/
theorem processFrame_eq (f : FrameIn) (s : LoopState) :
    processFrame f s =
      (⟨updatedSilence f s.consecutiveSilence,
        s.clients.map (stepClient (speakingOf (updatedSilence f s.consecutiveSilence)))⟩,
       ⟨speakingOf (updatedSilence f s.consecutiveSilence),
        s.clients.map (signalOf (speakingOf (updatedSilence f s.consecutiveSilence))),
        (if updatedSilence f s.consecutiveSilence ≤ 2 then
          some (if f.muted = true then List.replicate f.buf.length 0 else f.buf)
         else Option.none),
        (if updatedSilence f s.consecutiveSilence ≤ 2 then
          ((s.clients.map (stepClient (speakingOf (updatedSilence f s.consecutiveSilence)))).filter
            (fun c => c.connected)).map (fun c => c.channel)
         else [])⟩) := by
  unfold processFrame
  by_cases h : updatedSilence f s.consecutiveSilence > 2
  · have h2 : ¬ updatedSilence f s.consecutiveSilence ≤ 2 := by omega
    simp [h, h2]
  · have h2 : updatedSilence f s.consecutiveSilence ≤ 2 := by omega
    simp [h, h2]

theorem updatedSilence_eq (f : FrameIn) (n : Nat) :
    updatedSilence f n = if isSilentFrame f = true then n + 1 else 0 := by
  unfold updatedSilence isSilentFrame
  cases hm : f.muted <;> cases hz : countZeroAll f.buf <;> simp [hm, hz]

theorem runLoop_cons_fst (f : FrameIn) (fs : List FrameIn) (s : LoopState) :
    (runLoop (f :: fs) s).1 = (runLoop fs (processFrame f s).1).1 := rfl

theorem trailingSilent_cons (f : FrameIn) (fs : List FrameIn) :
    trailingSilent (f :: fs) =
      if fs.all isSilentFrame = true then
        (if isSilentFrame f = true then fs.length + 1 else fs.length)
      else trailingSilent fs := by
  unfold trailingSilent
  cases h : fs.all isSilentFrame with
  | true =>
    have hr : fs.reverse.all isSilentFrame = true := by
      rw [all_reverse_eq]; exact h
    rw [List.reverse_cons, takeWhile_append_of_all _ _ _ hr]
    cases hf : isSilentFrame f <;>
      simp [List.takeWhile_cons, hf, List.length_append]
  | false =>
    have hr : fs.reverse.all isSilentFrame = false := by
      rw [all_reverse_eq]; exact h
    rw [List.reverse_cons, takeWhile_append_of_not_all _ _ _ hr]
    simp

theorem runLoop_silence (fs : List FrameIn) (c : Nat) (cl : List VoiceClient) :
    (runLoop fs ⟨c, cl⟩).1.consecutiveSilence =
      if fs.all isSilentFrame = true then c + fs.length
      else trailingSilent fs := by
  induction fs generalizing c cl with
  | nil => simp [runLoop, trailingSilent]
  | cons f t ih =>
    rw [runLoop_cons_fst, processFrame_eq]
    rw [ih]
    rw [updatedSilence_eq, trailingSilent_cons]
    cases hf : isSilentFrame f <;> cases ht : t.all isSilentFrame <;>
      simp [List.all_cons, hf, ht, List.length_cons] <;> omega

theorem removeFirst_append_of_not_mem (l : List Nat) (c : Nat)
    (h : c ∉ l) : listRemoveFirst (l ++ [c]) c = l := by
  induction l with
  | nil => simp [listRemoveFirst]
  | cons x t ih =>
    have hx : ¬ x = c := fun he => h (he ▸ List.mem_cons_self x t)
    have ht : c ∉ t := fun hm => h (List.mem_cons_of_mem _ hm)
    simp [listRemoveFirst, hx, ih ht]

theorem queueOps_invariant (l : List QOp) (q : AudioQueue)
    (h : q.items.length ≤ q.maxsize) :
    (l.foldl queueStep q).maxsize = q.maxsize ∧
    (l.foldl queueStep q).items.length ≤ q.maxsize := by
  induction l generalizing q with
  | nil => exact ⟨rfl, h⟩
  | cons op t ih =>
    have hstep : (queueStep q op).maxsize = q.maxsize ∧
        (queueStep q op).items.length ≤ q.maxsize := by
      cases op with
      | put frame =>
        unfold queueStep put_nowait
        by_cases hf : q.maxsize ≤ q.items.length
        · simp [hf]; exact h
        · simp [hf, List.length_append]; omega
      | take =>
        unfold queueStep queueGet
        cases hq : q.items with
        | nil => exact ⟨rfl, by rw [hq] at h ⊢; exact h⟩
        | cons a t2 =>
          refine ⟨rfl, ?_⟩
          have : q.items.length = t2.length + 1 := by rw [hq]; simp
          simp; omega
    have hrec := ih (queueStep q op) (by rw [hstep.1]; exact hstep.2)
    rw [hstep.1] at hrec
    exact hrec

/-! ## Claim theorems -/

/-- C1: End-to-end scenario.  From the initial state (consecutive
silence 0, one connected session whose last-signaled state is the
default Silent, unmuted), processing 5 non-silent frames followed by 4
all-zero frames yields: a Speaking signal exactly once, at frame 1;
encode+send on frames 1 through 7 (7 calls); a Silent signal exactly
once, at frame 7; and no encode or send on frames 8 and 9.  The
right-hand side lists the observable events of the nine iterations. -/
theorem c1_scenario :
    (runLoop (List.replicate 5 ⟨false, [1]⟩ ++ List.replicate 4 ⟨false, [0]⟩)
        ⟨0, [⟨true, 7, Option.none⟩]⟩).2 =
      [⟨SpeakingState.voice, [some SpeakingState.voice], some [1], [7]⟩,
       ⟨SpeakingState.voice, [Option.none], some [1], [7]⟩,
       ⟨SpeakingState.voice, [Option.none], some [1], [7]⟩,
       ⟨SpeakingState.voice, [Option.none], some [1], [7]⟩,
       ⟨SpeakingState.voice, [Option.none], some [1], [7]⟩,
       ⟨SpeakingState.voice, [Option.none], some [0], [7]⟩,
       ⟨SpeakingState.none_, [some SpeakingState.none_], some [0], [7]⟩,
       ⟨SpeakingState.none_, [Option.none], Option.none, []⟩,
       ⟨SpeakingState.none_, [Option.none], Option.none, []⟩] := by
  decide

/-- C2: After processing a sequence of frames from the loop's initial
counter 0, `consecutive_silence` equals the number of trailing frames
that were each muted or all-zero; per frame, a muted-or-all-zero frame
increments the counter by exactly 1 and any other frame resets it
to 0. -/
theorem c2_consecutive_silence :
    (∀ (fs : List FrameIn) (cl : List VoiceClient),
      (runLoop fs ⟨0, cl⟩).1.consecutiveSilence = trailingSilent fs) ∧
    (∀ (f : FrameIn) (s : LoopState),
      (processFrame f s).1.consecutiveSilence =
        if isSilentFrame f = true then s.consecutiveSilence + 1 else 0) := by
  constructor
  · intro fs cl
    rw [runLoop_silence]
    cases h : fs.all isSilentFrame with
    | false => simp
    | true =>
      have ht : trailingSilent fs = fs.length := by
        unfold trailingSilent
        rw [takeWhile_of_all _ _ (by rw [all_reverse_eq]; exact h)]
        simp
      simp [ht]
  · intro f s
    rw [processFrame_eq]
    simp [updatedSilence_eq]

/-- C3: For every processed frame, the computed state is Speaking iff the
updated `consecutive_silence` is 0 or 1, and Silent iff it is at
least 2. -/
theorem c3_activity_state (f : FrameIn) (s : LoopState) :
    ((processFrame f s).2.speaking = SpeakingState.voice ↔
      (processFrame f s).1.consecutiveSilence ≤ 1) ∧
    ((processFrame f s).2.speaking = SpeakingState.none_ ↔
      2 ≤ (processFrame f s).1.consecutiveSilence) := by
  rw [processFrame_eq]
  unfold speakingOf
  by_cases h : updatedSilence f s.consecutiveSilence ≤ 1 <;> simp [h] <;> omega

/-- C4: For every processed frame, encode is invoked and the packet
fanned out to the connected sessions exactly when the updated
`consecutive_silence` is at most 2; above 2 the iteration hits
`continue` and neither encode nor any send happens. -/
theorem c4_transmit_gate (f : FrameIn) (s : LoopState) :
    ((processFrame f s).2.payload).isSome =
        decide ((processFrame f s).1.consecutiveSilence ≤ 2) ∧
    (processFrame f s).2.sends =
      (if (processFrame f s).1.consecutiveSilence ≤ 2 then
        (((processFrame f s).1.clients).filter (fun c => c.connected)).map
          (fun c => c.channel)
      else []) := by
  rw [processFrame_eq]
  by_cases h : updatedSilence f s.consecutiveSilence ≤ 2 <;> simp [h]

/-- C5: On every processed frame, every connected session is signaled
exactly when the newly computed state differs from its last-signaled
state (defaulting to Silent when never signaled); the signal carries the
new state, and the stored state is rewritten exactly on those frames and
left untouched on equal states. -/
theorem c5_dispatcher (f : FrameIn) (s : LoopState) :
    (∀ p ∈ s.clients.zip ((processFrame f s).2.signals),
      p.1.connected = true →
        ((p.2 ≠ Option.none ↔ storedSpeaking p.1 ≠ (processFrame f s).2.speaking) ∧
         (p.2 ≠ Option.none → p.2 = some ((processFrame f s).2.speaking)))) ∧
    (∀ q ∈ s.clients.zip ((processFrame f s).1.clients),
      q.1.connected = true →
        q.2 = (if storedSpeaking q.1 ≠ (processFrame f s).2.speaking then
                { q.1 with dmbSpeaking := some ((processFrame f s).2.speaking) }
               else q.1)) := by
  rw [processFrame_eq]
  constructor
  · intro p hp hc
    simp only at hp
    rw [zip_map_self] at hp
    obtain ⟨a, _, rfl⟩ := List.mem_map.mp hp
    have hc' : a.connected = true := hc
    by_cases hd : storedSpeaking a = speakingOf (updatedSilence f s.consecutiveSilence) <;>
      simp [signalOf, hc', hd]
  · intro q hq hc
    simp only at hq
    rw [zip_map_self] at hq
    obtain ⟨a, _, rfl⟩ := List.mem_map.mp hq
    have hc' : a.connected = true := hc
    by_cases hd : storedSpeaking a = speakingOf (updatedSilence f s.consecutiveSilence) <;>
      simp [stepClient, hc', hd]

/-- C5 witness: the concrete first frame of the C1 scenario, one
connected never-signaled session: the signal is present (Speaking differs
from the default Silent) and carries the new state. -/
theorem c5_dispatcher_witness :
    ((some SpeakingState.voice ≠ (Option.none : Option SpeakingState) ↔
        storedSpeaking ⟨true, 7, Option.none⟩ ≠
          (processFrame ⟨false, [1]⟩ ⟨0, [⟨true, 7, Option.none⟩]⟩).2.speaking) ∧
     (some SpeakingState.voice ≠ (Option.none : Option SpeakingState) →
        some SpeakingState.voice =
          some ((processFrame ⟨false, [1]⟩ ⟨0, [⟨true, 7, Option.none⟩]⟩).2.speaking))) :=
  (c5_dispatcher ⟨false, [1]⟩ ⟨0, [⟨true, 7, Option.none⟩]⟩).1
    (⟨true, 7, Option.none⟩, some SpeakingState.voice) (by decide) rfl

/-- C6 counterexample: with the slot already holding frame `[1]`, a put
of frame `[2]` leaves the queue holding the OLDER frame `[1]`; the newer
frame `[2]` is nowhere in the queue.  So under backpressure the code
drops the incoming (newer) frame and keeps the older occupant, not the
other way round as the claim's drop policy states. -/
theorem c6_handoff_counterexample :
    (put_nowait (put_nowait ⟨1, []⟩ [1]) [2]).items = [[1]] ∧
    ¬ [2] ∈ (put_nowait (put_nowait ⟨1, []⟩ [1]) [2]).items := by
  decide

/-- C6 (amended): for every access sequence from the initial empty
capacity-1 queue, the queue never holds more than one unconsumed frame,
and a put attempt while the slot is occupied leaves the queue unchanged —
the incoming (newer) frame is silently discarded, the occupant (older)
frame is retained, and nothing is ever queued behind it.  (The put is a
total function returning immediately: the producer never blocks.) -/
theorem c6_handoff_amended (ops : List QOp) :
    (runQueueOps ops).items.length ≤ 1 ∧
    ((runQueueOps ops).items ≠ [] →
      ∀ x, put_nowait (runQueueOps ops) x = runQueueOps ops) := by
  have inv := queueOps_invariant ops ⟨1, []⟩ (by simp)
  unfold runQueueOps
  refine ⟨inv.2, ?_⟩
  intro hne x
  have hlen : 1 ≤ (List.foldl queueStep ⟨1, []⟩ ops).items.length := by
    cases hq : (List.foldl queueStep ⟨1, []⟩ ops).items with
    | nil => exact absurd hq hne
    | cons a t => simp [hq]
  unfold put_nowait
  rw [inv.1, if_pos hlen]

/-- C6 witness: after a single successful put the slot is occupied, and a
second put of `[2]` bounces off, leaving the queue unchanged. -/
theorem c6_handoff_amended_witness :
    (runQueueOps [QOp.put [1]]).items.length ≤ 1 ∧
    put_nowait (runQueueOps [QOp.put [1]]) [2] = runQueueOps [QOp.put [1]] :=
  ⟨(c6_handoff_amended [QOp.put [1]]).1,
   (c6_handoff_amended [QOp.put [1]]).2 (by decide) [2]⟩

/-- C7 counterexample: leaving channel 5 when the joined registry is
empty raises `ValueError` to the caller (from
`self.joined.remove(channel)`), instead of being an error-free no-op. -/
theorem c7_leave_counterexample :
    leave_voice ⟨[], 0⟩ 5 = (⟨[], 0⟩, some PyError.valueError) := by
  decide

/-- C7 (amended): calling leave on a channel that was never joined
leaves the joined registry (and the rest of the state) unchanged, but
raises `ValueError` to the caller rather than returning silently. -/
theorem c7_leave_not_joined (s : BotState) (c : Nat) (h : c ∉ s.joined) :
    leave_voice s c = (s, some PyError.valueError) := by
  unfold leave_voice
  rw [if_neg h]

/-- C7 witness: the concrete counterexample state, via the theorem. -/
theorem c7_leave_not_joined_witness :
    leave_voice ⟨[3], 0⟩ 5 = (⟨[3], 0⟩, some PyError.valueError) :=
  c7_leave_not_joined ⟨[3], 0⟩ 5 (by decide)

/-- C8 counterexample: joining channel 5 with a failing connect returns
normally — the exception is caught and printed (`printedError = true`)
and nothing is raised to the caller (`raised = Option.none`), so the
failure is logged, not reported to the caller. -/
theorem c8_join_counterexample :
    join_voice ⟨[], 0⟩ 5 false = (⟨[], 1⟩, ⟨true, true, Option.none⟩) := by
  decide

/-- C8 (amended): join on an already-joined channel returns at once —
no connect attempt, no state change, nothing printed or raised; join on
a new channel whose connect fails leaves the channel out of the joined
registry, prints the failure, and returns normally to the caller
(`raised = Option.none`) — the failure is swallowed, not raised, and the
pipeline continues. -/
theorem c8_join_idempotent_and_failure (s : BotState) (c : Nat) (ok : Bool) :
    (c ∈ s.joined → join_voice s c ok = (s, ⟨false, false, Option.none⟩)) ∧
    (c ∉ s.joined → join_voice s c false =
      (⟨s.joined, s.encoderResets + 1⟩, ⟨true, true, Option.none⟩)) := by
  constructor
  · intro h
    unfold join_voice
    rw [if_pos h]
  · intro h
    unfold join_voice
    rw [if_neg h]
    simp [removeFirst_append_of_not_mem _ _ h]

/-- C8 witness: both branches at concrete states — channel 3 already
joined, and channel 5 with a failing connect. -/
theorem c8_join_idempotent_and_failure_witness :
    join_voice ⟨[3], 0⟩ 3 true = (⟨[3], 0⟩, ⟨false, false, Option.none⟩) ∧
    join_voice ⟨[3], 0⟩ 5 false = (⟨[3], 1⟩, ⟨true, true, Option.none⟩) :=
  ⟨(c8_join_idempotent_and_failure ⟨[3], 0⟩ 3 true).1 (by decide),
   (c8_join_idempotent_and_failure ⟨[3], 0⟩ 5 false).2 (by decide)⟩

/-- C9 counterexample: with an empty device table nothing matches the
requested (host API 0, device name 9) pair, and `start_recording`
returns silently — no error of any kind is produced, instead of the
claimed device error. -/
theorem c9_start_recording_counterexample :
    (⟨[0], [], true⟩ : RecEnv).devices.findIdx? (matchesDevice [0] 0 9) =
      Option.none ∧
    start_recording ⟨[0], [], true⟩ ⟨some 3⟩ 0 9 = (⟨Option.none⟩, Option.none) := by
  decide

/-- C9 (amended): when no device matches the (name, host API) pair,
`start_recording` returns silently with no error and the stream cleared
(the previous stream was already stopped, closed and cleared on entry);
when a device matches but the stream fails to start, the handle is
released (stream cleared) and the start error propagates to the
caller — no partial state is left in either case. -/
theorem c9_start_recording (env : RecEnv) (s : RecState) (hostapi device : Nat) :
    (env.devices.findIdx? (matchesDevice env.hostapis hostapi device) = Option.none →
      start_recording env s hostapi device = (⟨Option.none⟩, Option.none)) ∧
    (∀ i, env.devices.findIdx? (matchesDevice env.hostapis hostapi device) = some i →
      env.startOk = false →
      start_recording env s hostapi device = (⟨Option.none⟩, some PyError.streamStart)) := by
  constructor
  · intro hf
    unfold start_recording
    rw [hf]
  · intro i hf hok
    unfold start_recording
    rw [hf, hok]
    simp

/-- C9 witness: the no-match branch on an empty device table, and the
start-failure branch on a matching device with `startOk = false`. -/
theorem c9_start_recording_witness :
    start_recording ⟨[0], [], true⟩ ⟨some 3⟩ 0 9 = (⟨Option.none⟩, Option.none) ∧
    start_recording ⟨[0], [⟨9, 2, 0⟩], false⟩ ⟨Option.none⟩ 0 9 =
      (⟨Option.none⟩, some PyError.streamStart) :=
  ⟨(c9_start_recording ⟨[0], [], true⟩ ⟨some 3⟩ 0 9).1 (by decide),
   (c9_start_recording ⟨[0], [⟨9, 2, 0⟩], false⟩ ⟨Option.none⟩ 0 9).2 0 (by decide) rfl⟩

/-- C10: joining a channel not already joined always issues exactly one
`CTL_RESET_STATE` to the single shared encoder — also when the connect
fails, in which case the joined registry is restored to its previous
value while the encoder state has still been mutated.  (Per
`c8_join_idempotent_and_failure`, an already-joined channel triggers no
reset.) -/
theorem c10_encoder_reset_on_join (s : BotState) (c : Nat) (ok : Bool)
    (h : c ∉ s.joined) :
    (join_voice s c ok).1.encoderResets = s.encoderResets + 1 ∧
    (ok = false → (join_voice s c ok).1.joined = s.joined) := by
  unfold join_voice
  rw [if_neg h]
  cases ok with
  | false => simp [removeFirst_append_of_not_mem _ _ h]
  | true => simp

/-- C10 witness: a failed join of channel 5 with channel 3 joined — the
registry is back to `[3]` yet the encoder was reset once. -/
theorem c10_encoder_reset_on_join_witness :
    (join_voice ⟨[3], 4⟩ 5 false).1.encoderResets = 4 + 1 ∧
    (join_voice ⟨[3], 4⟩ 5 false).1.joined = [3] :=
  ⟨(c10_encoder_reset_on_join ⟨[3], 4⟩ 5 false (by decide)).1,
   (c10_encoder_reset_on_join ⟨[3], 4⟩ 5 false (by decide)).2 rfl⟩
